import Mathlib

/-!
A shallow embedding of the check abstraction of the `distributive` host
health-check toolkit (package `checks`, plus the legacy `workers` and
`main` packages), together with theorems settling the specification's
claims about it.

Conventions of the embedding:
  - Go's `(int, string, error)` status triple becomes the `Result`
    structure; the `error` interface is represented by `Option String`
    (the error's text).
  - Status methods perform I/O in the source (subprocess output, socket
    probes).  Each external data source is made an explicit argument (an
    environment structure or function parameter), so a status method
    becomes a pure function of its check fields and its environment.
  - External library calls whose code lives outside this repository
    (`net.IP` operations, `time.ParseDuration`, `regexp.Compile`,
    the regular-expression matcher) are abstracted as function
    parameters: the surrounding control flow — which is what the claims
    are about — is translated literally from the source.
  - Functions of this repository that the source calls but whose files
    are not part of the excerpt (`errutil`, `netstatus`, `tabular`)
    are modelled from the specification; each such definition carries a
    doc comment starting with `Modelled from the spec:`.
  - A `log.Fatal` (whole-run abort, the specification's collapsed
    InfrastructureError tier) is modelled by returning `none` from an
    `Option Result`-valued status function.
-/

/-- The universal return contract of a check execution: exit code,
human-readable message, optional internal error (`error` in Go,
represented here by the error's text). -/
structure Result where
  code : Nat
  message : String
  cause : Option String
deriving DecidableEq

/-- Modelled from the spec: `errutil.Success()` — "passing checks produce
no message"; a passing execution is code 0, empty message, nil error. -/
def success : Result := ⟨0, "", none⟩

/-- Modelled from the spec: `errutil.GenericError(msg, specified, actual)`
— a ProbeFailure: "Result.code != 0, message names the condition, the
expected value, and the actual observed set". -/
def genericError (msg : String) (specified : String) (actual : List String) : Result :=
  ⟨1, msg ++ ("\n\tSpecified: " ++ (specified ++ ("\n\tActual: " ++ String.intercalate ", " actual))), none⟩

/-- `strings.Contains(s, sub)`: `sub` occurs as a contiguous substring of
`s` (the empty string occurs in every string). -/
def strContains (s sub : String) : Bool :=
  s.data.tails.any fun t => sub.data.isPrefixOf t

/-- Modelled from the spec: `tabular.StrIn(str, list)` — "when comparing
against a system-provided list, membership is exact string match, not
substring". -/
def strIn (s : String) (l : List String) : Bool := l.contains s

/- ### Identifier strings (the `ID()` methods of every variant of the
`checks` package, translated one-for-one from the source) -/

def Port.ID : String := "Port"

def PortTCP.ID : String := "PortTCP"

def PortUDP.ID : String := "PortUDP"

def InterfaceExists.ID : String := "InterfaceExists"

def Up.ID : String := "Up"

def IP4.ID : String := "IP4"

def IP6.ID : String := "IP6"

def Gateway.ID : String := "Gateway"

def GatewayInterface.ID : String := "GatewayInterface"

def Host.ID : String := "Host"

def TCP.ID : String := "TCP"

def UDP.ID : String := "UDP"

def TCPTimeout.ID : String := "TCPTimeout"

def UDPTimeout.ID : String := "UDPTimeout"

def RoutingTableDestination.ID : String := "RoutingTableDestination"

def RoutingTableInterface.ID : String := "RoutingTableInterface"

def RoutingTableGateway.ID : String := "RoutingTableDestination"

def ResponseMatches.ID : String := "RoutingTableDestination"

def ResponseMatchesInsecure.ID : String := "RoutingTableDestination"

def Command.ID : String := "Command"

def CommandOutputMatches.ID : String := "CommandOutputMatches"

def Running.ID : String := "Running"

def Temp.ID : String := "Temp"

def Module.ID : String := "Module"

def KernelParameter.ID : String := "KernelParameter"

def PHPConfig.ID : String := "PHPConfig"

/-- Modelled from the spec: the Registry maps each registered name to a
constructor; "register(name, arity, constructor)" populates it at
startup, one entry per variant under that variant's own name, and the
round-trip requirement is that the looked-up check's identifier equals
the registered name.  Each entry is paired here with the identifier
string its variant's `ID()` method actually returns. -/
def registryChecks : List (String × String) :=
  [("Port", Port.ID), ("PortTCP", PortTCP.ID), ("PortUDP", PortUDP.ID),
   ("InterfaceExists", InterfaceExists.ID), ("Up", Up.ID),
   ("IP4", IP4.ID), ("IP6", IP6.ID),
   ("Gateway", Gateway.ID), ("GatewayInterface", GatewayInterface.ID),
   ("Host", Host.ID), ("TCP", TCP.ID), ("UDP", UDP.ID),
   ("TCPTimeout", TCPTimeout.ID), ("UDPTimeout", UDPTimeout.ID),
   ("RoutingTableDestination", RoutingTableDestination.ID),
   ("RoutingTableInterface", RoutingTableInterface.ID),
   ("RoutingTableGateway", RoutingTableGateway.ID),
   ("ResponseMatches", ResponseMatches.ID),
   ("ResponseMatchesInsecure", ResponseMatchesInsecure.ID),
   ("Command", Command.ID), ("CommandOutputMatches", CommandOutputMatches.ID),
   ("Running", Running.ID), ("Temp", Temp.ID), ("Module", Module.ID),
   ("KernelParameter", KernelParameter.ID), ("PHPConfig", PHPConfig.ID)]

/- ### Small string facts used to discharge the Result invariant -/

theorem append_ne_empty_of_left (a b : String) (h : a ≠ "") : a ++ b ≠ "" := by
  intro hab
  apply h
  have hd : a.data ++ b.data = [] := congrArg String.data hab
  have hx : a.data = [] := (List.append_eq_nil.mp hd).1
  cases a
  simp_all

theorem append_ne_empty_of_right (a b : String) (h : b ≠ "") : a ++ b ≠ "" := by
  intro hab
  apply h
  have hd : a.data ++ b.data = [] := congrArg String.data hab
  have hx : b.data = [] := (List.append_eq_nil.mp hd).2
  cases b
  simp_all

theorem genericError_message_ne_empty (msg specified : String) (actual : List String) :
    (genericError msg specified actual).message ≠ "" := by
  show msg ++ _ ≠ ""
  apply append_ne_empty_of_right
  apply append_ne_empty_of_left
  decide

/- ### Parameter validation (the `New` methods) -/

/-- The two validation error shapes of `errutil`:
`ParameterLengthError{Expected, Params}` (an ArityError naming the
expected count and carrying the actual parameter list) and
`ParameterTypeError{Parameter, ExpectedType}` (a TypeError naming the
offending value and the expected type). -/
inductive NewError where
  | paramLength (expected : Nat) (params : List String)
  | paramType (value : String) (expectedType : String)
deriving DecidableEq

/-- `strconv.ParseUint(s, 10, 16)`: a non-empty all-decimal-digit string
whose value fits in 16 bits; anything else is an error (`none`). -/
def parseUint16 (s : String) : Option Nat :=
  if s.data = [] then none
  else if s.data.all (fun c => c.isDigit) then
    let n := s.data.foldl (fun a c => a * 10 + (c.toNat - 48)) 0
    if n ≤ 65535 then some n else none
  else none

/-- `parsePort` wraps `strconv.ParseUint(portStr, 10, 16)`; the extra
range test in the source is dead code (`ParseUint` with bit size 16
already rejects values above 65535). -/
def parsePort (portStr : String) : Option Nat := parseUint16 portStr

structure Port where
  port : Nat
deriving DecidableEq

/-- `Port.New`: exactly one parameter, which must parse as a uint16. -/
def Port.New (params : List String) : Except NewError Port :=
  match params with
  | [p] =>
    match parsePort p with
    | some portInt => .ok ⟨portInt⟩
    | none => .error (.paramType p "uint16")
  | _ => .error (.paramLength 1 params)

structure PortTCP where
  port : Nat
deriving DecidableEq

/-- `PortTCP.New`: same validation as `Port.New`. -/
def PortTCP.New (params : List String) : Except NewError PortTCP :=
  match params with
  | [p] =>
    match parsePort p with
    | some portInt => .ok ⟨portInt⟩
    | none => .error (.paramType p "uint16")
  | _ => .error (.paramLength 1 params)

structure PortUDP where
  port : Nat
deriving DecidableEq

/-- `PortUDP.New`: same validation as `Port.New`. -/
def PortUDP.New (params : List String) : Except NewError PortUDP :=
  match params with
  | [p] =>
    match parsePort p with
    | some portInt => .ok ⟨portInt⟩
    | none => .error (.paramType p "uint16")
  | _ => .error (.paramLength 1 params)

/-- An IP4 check holds an interface name and a parsed IP address; the
address type is abstract (`net.IP` lives outside this repository). -/
structure IP4 (IP : Type) where
  name : String
  ip : IP

/-- `IP4.New`: two parameters; the second must satisfy
`netstatus.ValidIP` and is then parsed with `net.ParseIP` (both passed
in as abstract functions). -/
def IP4.New (IP : Type) (validIP : String → Bool) (parseIP : String → IP)
    (params : List String) : Except NewError (IP4 IP) :=
  match params with
  | [n, a] =>
    if validIP a = false then .error (.paramType a "IP")
    else .ok ⟨n, parseIP a⟩
  | _ => .error (.paramLength 2 params)

structure IP6 (IP : Type) where
  name : String
  ip : IP

/-- `IP6.New`: identical validation to `IP4.New`. -/
def IP6.New (IP : Type) (validIP : String → Bool) (parseIP : String → IP)
    (params : List String) : Except NewError (IP6 IP) :=
  match params with
  | [n, a] =>
    if validIP a = false then .error (.paramType a "IP")
    else .ok ⟨n, parseIP a⟩
  | _ => .error (.paramLength 2 params)

/-- A TCPTimeout check holds a host string and a `time.Duration`
(an `int64` nanosecond count in Go, hence `Int`). -/
structure TCPTimeout where
  name : String
  timeout : Int
deriving DecidableEq

/-- `TCPTimeout.New`: two parameters; the second must parse as a
`time.Duration` (`time.ParseDuration` passed in as an abstract
function). -/
def TCPTimeout.New (parseDuration : String → Option Int)
    (params : List String) : Except NewError TCPTimeout :=
  match params with
  | [n, d] =>
    match parseDuration d with
    | some dur => .ok ⟨n, dur⟩
    | none => .error (.paramType d "time.Duration")
  | _ => .error (.paramLength 2 params)

/-- A ResponseMatches check holds a URL string and a compiled regular
expression; the compiled-regexp type is abstract. -/
structure ResponseMatches (R : Type) where
  urlstr : String
  re : R

/-- `ResponseMatches.New`: two parameters; the second must compile as a
regular expression (`regexp.Compile` passed in as an abstract
function). -/
def ResponseMatches.New (R : Type) (compile : String → Option R)
    (params : List String) : Except NewError (ResponseMatches R) :=
  match params with
  | [u, p] =>
    match compile p with
    | some re => .ok ⟨u, re⟩
    | none => .error (.paramType p "regexp")
  | _ => .error (.paramLength 2 params)

/- ### Execution environments and the `Status` methods -/

/-- Modelled from the spec: the `netstatus` view of the host — the set of
locally open ports per protocol ("TCP/UDP port open locally").
`netstatus.PortOpen(protocol, port)` is membership in the corresponding
list and `netstatus.OpenPorts(protocol)` returns the whole list. -/
structure NetEnv where
  tcpPorts : List Nat
  udpPorts : List Nat

/-- Modelled from the spec: `netstatus.OpenPorts(protocol)`. -/
def openPorts (env : NetEnv) (protocol : String) : List Nat :=
  if protocol = "tcp" then env.tcpPorts
  else if protocol = "udp" then env.udpPorts
  else []

/-- Modelled from the spec: `netstatus.PortOpen(protocol, port)`. -/
def portOpen (env : NetEnv) (protocol : String) (port : Nat) : Bool :=
  (openPorts env protocol).contains port

/-- `Port.Status`: pass if the port is open on TCP or on UDP; otherwise a
GenericError listing every open TCP and UDP port. -/
def Port.Status (env : NetEnv) (chk : Port) : Result :=
  if portOpen env "tcp" chk.port || portOpen env "udp" chk.port then success
  else
    genericError "Port not open" (toString chk.port)
      ((openPorts env "tcp" ++ openPorts env "udp").map toString)

/-- `PortTCP.Status`: pass if the port is open on TCP. -/
def PortTCP.Status (env : NetEnv) (chk : PortTCP) : Result :=
  if portOpen env "tcp" chk.port then success
  else
    genericError "Port not open" (toString chk.port)
      ((openPorts env "tcp").map toString)

/-- `PortUDP.Status`: pass if the port is open on UDP. -/
def PortUDP.Status (env : NetEnv) (chk : PortUDP) : Result :=
  if portOpen env "udp" chk.port then success
  else
    genericError "Port not open" (toString chk.port)
      ((openPorts env "udp").map toString)

/-- The `net` view an IP check consults: `netstatus.InterfaceIPs` (the
addresses of a named interface), `net.IP.Equal` and the `net.IP` string
rendering, all abstract. -/
structure IPEnv (IP : Type) where
  interfaceIPs : String → List IP
  ipEqual : IP → IP → Bool
  ipToString : IP → String

/-- `ipCheck(name, address, version)`, the shared body of `IP4.Status`
and `IP6.Status`; the `version` argument is received but never read. -/
def ipCheck (IP : Type) (env : IPEnv IP) (name : String) (address : IP)
    (version : Nat) : Result :=
  let _ := version
  let ips := env.interfaceIPs name
  if ips.any (fun ip => env.ipEqual ip address) then success
  else
    genericError "Interface does not have IP" (env.ipToString address)
      (ips.map env.ipToString)

/-- `IP4.Status` calls `ipCheck` with version 4. -/
def IP4.Status (IP : Type) (env : IPEnv IP) (chk : IP4 IP) : Result :=
  ipCheck IP env chk.name chk.ip 4

/-- `IP6.Status` calls `ipCheck` with version 6. -/
def IP6.Status (IP : Type) (env : IPEnv IP) (chk : IP6 IP) : Result :=
  ipCheck IP env chk.name chk.ip 6

/-- The loop of `getGatewayAddress` inside `Gateway.Status`: the first
entry of the routing table's Gateway column different from `"0.0.0.0"`,
else `"0.0.0.0"`. -/
def getGatewayAddress : List String → String
  | [] => "0.0.0.0"
  | ip :: rest => if ip ≠ "0.0.0.0" then ip else getGatewayAddress rest

/-- A Gateway check holds the configured IP; the field here is the
canonical rendering `chk.ip.String()` that the source compares. -/
structure Gateway where
  ipStr : String
deriving DecidableEq

/-- `Gateway.Status`, as a function of the routing table's Gateway column
(supplied by `RoutingTableColumn("Gateway")`, whose `route -n` parsing
is outside this model): pass iff the configured address equals the first
non-zero Gateway entry (or `"0.0.0.0"` when there is none). -/
def Gateway.Status (gatewayCol : List String) (chk : Gateway) : Result :=
  let GatewayIP := getGatewayAddress gatewayCol
  if chk.ipStr = GatewayIP then success
  else genericError "Gateway does not have address" chk.ipStr [GatewayIP]

/-- The loop of `getGatewayInterface` inside `GatewayInterface.Status`,
with the running row index made explicit: at the first Gateway entry
different from `"0.0.0.0"` it returns the interface name at the same
index (`errutil.IndexError` aborts the run — `none` — when the Iface
column is shorter, the spec's fatal InfrastructureError tier); when no
such entry exists the loop falls through and returns `""`. -/
def getGatewayInterfaceAux (names : List String) : List String → Nat → Option String
  | [], _ => some ""
  | ip :: rest, i =>
    if ip ≠ "0.0.0.0" then
      if h : i < names.length then some (names.get ⟨i, h⟩) else none
    else getGatewayInterfaceAux names rest (i + 1)

/-- `getGatewayInterface`: the interface name of the first
non-zero-gateway row of the routing table. -/
def getGatewayInterface (ips names : List String) : Option String :=
  getGatewayInterfaceAux names ips 0

structure GatewayInterface where
  name : String
deriving DecidableEq

/-- `GatewayInterface.Status`, as a function of the routing table's
Gateway and Iface columns: pass iff the configured name equals the
interface of the first non-zero-gateway row. -/
def GatewayInterface.Status (gatewayCol ifaceCol : List String)
    (chk : GatewayInterface) : Option Result :=
  match getGatewayInterface gatewayCol ifaceCol with
  | none => none
  | some iface =>
    if chk.name = iface then some success
    else
      some (genericError "Default Gateway does not operate on interface" chk.name [iface])

structure Host where
  hostname : String
deriving DecidableEq

/-- `Host.Status`: pass iff `netstatus.Resolvable` (abstract) holds. -/
def Host.Status (resolvable : String → Bool) (chk : Host) : Result :=
  if resolvable chk.hostname then success
  else ⟨1, "Host cannot be resolved: " ++ chk.hostname, none⟩

/-- `connectionCheck(host, protocol, timeout)`, the shared body of the
TCP/UDP reachability checks; `netstatus.CanConnect` is abstract. -/
def connectionCheck (canConnect : String → String → Int → Bool)
    (host protocol : String) (timeout : Int) : Result :=
  if canConnect host protocol timeout then success
  else ⟨1, "Could not connect over " ++ (protocol ++ (" to host: " ++ host)), none⟩

structure Command where
  cmd : String
deriving DecidableEq

/-- The subprocess outcome `Command.Status` observes: the error of
`cmd.Start()` (as text), the outcome of `cmd.Wait()` (`none` when the
command exited 0, otherwise the `ExitStatus` recovered from the
`ExitError`/`WaitStatus` casts when they succeed), and the combined
output read afterwards. -/
structure CmdEnv where
  startErr : Option String
  waitFailure : Option (Option Int)
  combinedOut : String

/-- `Command.Status`: if `Start` fails with a "not found in $PATH" error
the message names the missing executable; if `Start` fails otherwise the
source returns code 1 with an EMPTY message and the raw error; if `Wait`
reports a non-zero exit the message names the command, the exit code
(recovered exit status, replaced by 1 when the casts fail or yield 0)
and the output; otherwise success. -/
def Command.Status (env : CmdEnv) (chk : Command) : Result :=
  match env.startErr with
  | some e =>
    if strContains e "not found in $PATH" then
      ⟨1, "Executable not found: " ++ chk.cmd, none⟩
    else ⟨1, "", some e⟩
  | none =>
    match env.waitFailure with
    | some recovered =>
      let raw : Int := match recovered with | some c => c | none => 0
      let exitCode : Int := if raw = 0 then 1 else raw
      ⟨1, "Command exited with non-zero exit code:" ++
            ("\n\tCommand: " ++ (chk.cmd ++
              ("\n\tExit code: " ++ (toString exitCode ++
                ("\n\tOutput: " ++ env.combinedOut))))), none⟩
    | none => success

structure Running where
  name : String
deriving DecidableEq

/-- The process listing `Running.Status` observes: the entries of the
Command column of `ps aux` (`chkutil.CommandColumnNoHeader(10, ...)`). -/
structure PsEnv where
  commands : List String

/-- `Running.Status`: drop every command entry containing
`"distributive"` (the checker's own process), then pass iff the
configured name is in the remaining list by `tabular.StrIn` (exact
string membership). -/
def Running.Status (env : PsEnv) (chk : Running) : Result :=
  let filtered := env.commands.filter (fun c => !(strContains c "distributive"))
  if strIn chk.name filtered then success
  else genericError "Process not Running" chk.name filtered

structure Temp where
  max : Nat
deriving DecidableEq

/-- `Temp.Status`, as a function of the `sensors` output lines and of the
per-line matcher (the compiled pattern
`Core\s\d+:\s+[\+\-](?P<Temp>\d+)\.*\d*(°|\s)C` together with
`chkutil.SubmatchMap` and `strconv.ParseInt` of the captured `Temp`
group — for this pattern a match always carries a parseable digit
group, so the matcher returns the captured integer exactly on matching
lines).  `allCoreTemps` collects the value of every matching line;
`getCoreTemp(0)` takes the first and `errutil.IndexError` aborts the run
(`none`, the fatal InfrastructureError tier) when no line matched; the
check passes iff that first temperature is strictly below the
maximum. -/
def Temp.Status (matchTemp : String → Option Nat) (chk : Temp)
    (lines : List String) : Option Result :=
  match lines.filterMap matchTemp with
  | [] => none
  | t :: _ =>
    if t < chk.max then some success
    else some (genericError "Core Temp exceeds defined maximum" (toString chk.max) [toString t])

/- ### Helper lemmas -/

theorem ite_success_code (c : Prop) [Decidable c] (m s : String) (a : List String) :
    ((if c then success else genericError m s a) : Result).code = 0 ↔ c := by
  split
  · simpa [success]
  · simp_all [genericError]

/- ### Claims -/

/-- Claim C2: the specification requires every pair of distinct check
variants to have different `ID()` strings.  The code violates it:
`RoutingTableGateway`, `ResponseMatches` and `ResponseMatchesInsecure`
all return `RoutingTableDestination.ID`'s string
`"RoutingTableDestination"` instead of their own names — the copy-paste
defect the specification's design notes flag. -/
theorem C2_duplicate_identifiers :
    RoutingTableGateway.ID = RoutingTableDestination.ID
  ∧ ResponseMatches.ID = RoutingTableDestination.ID
  ∧ ResponseMatchesInsecure.ID = RoutingTableDestination.ID
  ∧ RoutingTableGateway.ID ≠ "RoutingTableGateway"
  ∧ ResponseMatches.ID ≠ "ResponseMatches"
  ∧ ResponseMatchesInsecure.ID ≠ "ResponseMatchesInsecure" := by
  refine ⟨rfl, rfl, rfl, ?_, ?_, ?_⟩ <;> decide

/-- Claim C9: the specification's round-trip law says a check's
identifier equals the name under which the registry holds it.  With the
registry modelled from the spec (each variant registered under its own
name), the `RoutingTableGateway` entry violates the law: its `ID()`
returns `"RoutingTableDestination"`. -/
theorem C9_registry_roundtrip_bug :
    ("RoutingTableGateway", RoutingTableGateway.ID) ∈ registryChecks
  ∧ RoutingTableGateway.ID ≠ "RoutingTableGateway"
  ∧ ¬ (∀ entry ∈ registryChecks, entry.2 = entry.1) := by
  refine ⟨by decide, by decide, fun h => ?_⟩
  have := h ("RoutingTableGateway", RoutingTableGateway.ID) (by decide)
  exact absurd this (by decide)

/-- Claim C7: the version argument of `ipCheck` never influences its
output — the IP4 and IP6 checks built from the same (name, address)
parameters construct identically and execute to the same Result. -/
theorem C7_ip_version_unused (IP : Type) (env : IPEnv IP) (n : String) (a : IP) :
    IP4.Status IP env ⟨n, a⟩ = IP6.Status IP env ⟨n, a⟩
  ∧ (∀ v w : Nat, ipCheck IP env n a v = ipCheck IP env n a w)
  ∧ (∀ (validIP : String → Bool) (parseIP : String → IP) (params : List String),
      IP4.New IP validIP parseIP params = .ok ⟨n, a⟩ ↔
        IP6.New IP validIP parseIP params = .ok ⟨n, a⟩) := by
  refine ⟨rfl, fun v w => rfl, fun validIP parseIP params => ?_⟩
  match params with
  | [] => simp [IP4.New, IP6.New]
  | [x] => simp [IP4.New, IP6.New]
  | [x, y] =>
    by_cases hv : validIP y = false <;>
      simp [IP4.New, IP6.New, hv, IP4.mk.injEq, IP6.mk.injEq]
  | x :: y :: z :: rest => simp [IP4.New, IP6.New]

/-- Claim C4: `Port(P)` passes iff P is open on TCP or UDP, `PortTCP(P)`
passes iff P is open on TCP, and `PortUDP(P)` passes iff P is open on
UDP — so a TCP listener on P makes `Port(P)` and `PortTCP(P)` pass while
`PortUDP(P)` fails unless P is also bound on UDP. -/
theorem C4_port_semantics (env : NetEnv) (p : Nat) :
    ((Port.Status env ⟨p⟩).code = 0 ↔ (p ∈ env.tcpPorts ∨ p ∈ env.udpPorts))
  ∧ ((PortTCP.Status env ⟨p⟩).code = 0 ↔ p ∈ env.tcpPorts)
  ∧ ((PortUDP.Status env ⟨p⟩).code = 0 ↔ p ∈ env.udpPorts) := by
  have htcp : openPorts env "tcp" = env.tcpPorts := rfl
  have hudp : openPorts env "udp" = env.udpPorts := rfl
  refine ⟨?_, ?_, ?_⟩
  · rw [Port.Status, ite_success_code]
    simp [portOpen, htcp, hudp, List.elem_iff]
  · rw [PortTCP.Status, ite_success_code]
    simp [portOpen, htcp, List.elem_iff]
  · rw [PortUDP.Status, ite_success_code]
    simp [portOpen, hudp, List.elem_iff]

/-- Claim C8 (counterexample to the claim as stated): the Running check
does NOT match by substring containment — with `"/usr/sbin/nginx"` as
the only running command (which is not excluded, containing no
`"distributive"`), the name `"nginx"` is contained in it as a substring,
yet the check fails with code 1. -/
theorem C8_running_not_substring :
    (Running.Status ⟨["/usr/sbin/nginx"]⟩ ⟨"nginx"⟩).code = 1
  ∧ strContains "/usr/sbin/nginx" "nginx" = true
  ∧ strContains "/usr/sbin/nginx" "distributive" = false := by
  decide

/-- Claim C8 (amended): the Running check passes iff the configured name
is EXACTLY EQUAL to one of the command entries of the running processes,
after excluding entries whose command contains `"distributive"` (the
checker's own process). -/
theorem C8_running_exact (env : PsEnv) (name : String) :
    (Running.Status env ⟨name⟩).code = 0 ↔
      (name ∈ env.commands ∧ strContains name "distributive" = false) := by
  rw [Running.Status, ite_success_code]
  simp [strIn, List.elem_iff, List.mem_filter]

/- ### Gateway column lemmas -/

theorem getGatewayAddress_append_first (pre : List String) (g : String) (post : List String)
    (hpre : ∀ x ∈ pre, x = "0.0.0.0") (hg : g ≠ "0.0.0.0") :
    getGatewayAddress (pre ++ g :: post) = g := by
  induction pre with
  | nil => simp [getGatewayAddress, hg]
  | cons x xs ih =>
    have hx : x = "0.0.0.0" := hpre x (by simp)
    simp only [List.cons_append, getGatewayAddress, hx]
    simpa using ih (fun y hy => hpre y (by simp [hy]))

theorem getGatewayAddress_all_zero (l : List String)
    (h : ∀ x ∈ l, x = "0.0.0.0") : getGatewayAddress l = "0.0.0.0" := by
  induction l with
  | nil => rfl
  | cons x xs ih =>
    have hx : x = "0.0.0.0" := h x (by simp)
    simp only [getGatewayAddress, hx]
    simpa using ih (fun y hy => h y (by simp [hy]))

theorem getGatewayInterfaceAux_append (names : List String) (g : String) (post : List String)
    (hg : g ≠ "0.0.0.0") (pre : List String) (hpre : ∀ x ∈ pre, x = "0.0.0.0") :
    ∀ i : Nat, getGatewayInterfaceAux names (pre ++ g :: post) i = names.get? (i + pre.length) := by
  induction pre with
  | nil =>
    intro i
    by_cases h : i < names.length
    · simp [getGatewayInterfaceAux, hg, h, List.get?_eq_get]
    · simp only [List.nil_append, getGatewayInterfaceAux, hg, ne_eq,
        not_false_iff, if_true, dif_neg h]
      symm
      rw [List.get?_eq_none]
      omega
  | cons x xs ih =>
    intro i
    have hx : x = "0.0.0.0" := hpre x (by simp)
    have step : getGatewayInterfaceAux names ((x :: xs) ++ g :: post) i
        = getGatewayInterfaceAux names (xs ++ g :: post) (i + 1) := by
      simp [getGatewayInterfaceAux, hx]
    rw [step, ih (fun y hy => hpre y (by simp [hy])) (i + 1)]
    have harith : i + 1 + xs.length = i + (x :: xs).length := by
      simp only [List.length_cons]
      omega
    rw [harith]

/-- Claim C5: with multiple routing-table rows, the Gateway check
compares the configured IP against the first Gateway-column entry not
equal to "0.0.0.0", and the GatewayInterface check reports the Iface
entry at that same row's index. -/
theorem C5_gateway_tiebreak (pre : List String) (g : String) (post : List String)
    (names : List String) (hpre : ∀ x ∈ pre, x = "0.0.0.0") (hg : g ≠ "0.0.0.0") :
    getGatewayAddress (pre ++ g :: post) = g
  ∧ (∀ chk : Gateway, (Gateway.Status (pre ++ g :: post) chk).code = 0 ↔ chk.ipStr = g)
  ∧ getGatewayInterface (pre ++ g :: post) names = names.get? pre.length
  ∧ (∀ nm iface : String, names.get? pre.length = some iface →
      (GatewayInterface.Status (pre ++ g :: post) names ⟨nm⟩ = some success ↔ nm = iface)) := by
  have h0 : getGatewayAddress (pre ++ g :: post) = g :=
    getGatewayAddress_append_first pre g post hpre hg
  have h1 : getGatewayInterface (pre ++ g :: post) names = names.get? pre.length := by
    rw [getGatewayInterface, getGatewayInterfaceAux_append names g post hg pre hpre 0]
    simp
  refine ⟨h0, ?_, h1, ?_⟩
  · intro chk
    rw [show Gateway.Status (pre ++ g :: post) chk =
        (if chk.ipStr = getGatewayAddress (pre ++ g :: post) then success
         else genericError "Gateway does not have address" chk.ipStr
           [getGatewayAddress (pre ++ g :: post)]) from rfl,
      ite_success_code, h0]
  · intro nm iface hifc
    rw [GatewayInterface.Status, h1, hifc]
    by_cases hnm : nm = iface
    · simp [hnm]
    · simp [hnm, genericError, success]

/-- Claim C5 witness: a routing table whose Gateway column is
["0.0.0.0", "192.168.1.1", "10.0.0.1"] with Iface column
["lo", "eth0", "wlan0"]: the compared address is "192.168.1.1" (first
non-zero entry, row 1), `Gateway("192.168.1.1")` passes, and
GatewayInterface reports "eth0" (the Iface entry of row 1). -/
theorem C5_gateway_tiebreak_witness :
    getGatewayAddress ["0.0.0.0", "192.168.1.1", "10.0.0.1"] = "192.168.1.1"
  ∧ (Gateway.Status ["0.0.0.0", "192.168.1.1", "10.0.0.1"] ⟨"192.168.1.1"⟩).code = 0
  ∧ getGatewayInterface ["0.0.0.0", "192.168.1.1", "10.0.0.1"] ["lo", "eth0", "wlan0"]
      = some "eth0"
  ∧ GatewayInterface.Status ["0.0.0.0", "192.168.1.1", "10.0.0.1"] ["lo", "eth0", "wlan0"]
      ⟨"eth0"⟩ = some success := by
  have h := C5_gateway_tiebreak ["0.0.0.0"] "192.168.1.1" ["10.0.0.1"]
    ["lo", "eth0", "wlan0"] (by decide) (by decide)
  refine ⟨h.1, (h.2.1 ⟨"192.168.1.1"⟩).mpr rfl, h.2.2.1.trans (by decide), ?_⟩
  exact (h.2.2.2 "eth0" "eth0" (by decide)).mpr rfl

/-- Claim C10: when every Gateway-column entry is "0.0.0.0" (no default
gateway), the Gateway check compares against "0.0.0.0": the check passes
iff the configured address renders as "0.0.0.0", and any other address
fails with "0.0.0.0" reported as the observed value. -/
theorem C10_gateway_zero_address (ips : List String) (chk : Gateway)
    (h : ∀ x ∈ ips, x = "0.0.0.0") :
    ((Gateway.Status ips chk).code = 0 ↔ chk.ipStr = "0.0.0.0")
  ∧ (chk.ipStr ≠ "0.0.0.0" →
      Gateway.Status ips chk
        = genericError "Gateway does not have address" chk.ipStr ["0.0.0.0"]) := by
  have h0 : getGatewayAddress ips = "0.0.0.0" := getGatewayAddress_all_zero ips h
  constructor
  · rw [show Gateway.Status ips chk =
        (if chk.ipStr = getGatewayAddress ips then success
         else genericError "Gateway does not have address" chk.ipStr
           [getGatewayAddress ips]) from rfl,
      ite_success_code, h0]
  · intro hne
    rw [show Gateway.Status ips chk =
        (if chk.ipStr = getGatewayAddress ips then success
         else genericError "Gateway does not have address" chk.ipStr
           [getGatewayAddress ips]) from rfl,
      h0, if_neg hne]

/-- Claim C10 witness: with Gateway column ["0.0.0.0", "0.0.0.0"],
`Gateway("0.0.0.0")` passes, and `Gateway("1.2.3.4")` fails reporting
"0.0.0.0" as the observed value. -/
theorem C10_gateway_zero_address_witness :
    (Gateway.Status ["0.0.0.0", "0.0.0.0"] ⟨"0.0.0.0"⟩).code = 0
  ∧ Gateway.Status ["0.0.0.0", "0.0.0.0"] ⟨"1.2.3.4"⟩
      = genericError "Gateway does not have address" "1.2.3.4" ["0.0.0.0"] := by
  constructor
  · exact ((C10_gateway_zero_address ["0.0.0.0", "0.0.0.0"] ⟨"0.0.0.0"⟩
      (by decide)).1).mpr rfl
  · exact (C10_gateway_zero_address ["0.0.0.0", "0.0.0.0"] ⟨"1.2.3.4"⟩
      (by decide)).2 (by decide)

/-- Claim C3: construction validation.  For the representative variants
covering the claim's four semantic parameter types — Port (uint16, with
the source's concrete `strconv.ParseUint` wrapper), IP4 (IP address),
TCPTimeout (duration) and ResponseMatches (regular expression) — a
parameter list of the wrong length yields a ParameterLengthError naming
the expected count and the actual parameters; a parameter rejected by
its type's validator yields a ParameterTypeError naming the offending
value and the expected type; and every valid parameter set yields a
fully-typed check and no error. -/
theorem C3_construction_validation :
    (∀ params : List String, params.length ≠ 1 →
        Port.New params = .error (.paramLength 1 params))
  ∧ (∀ p : String, parsePort p = none →
        Port.New [p] = .error (.paramType p "uint16"))
  ∧ (∀ (p : String) (n : Nat), parsePort p = some n → Port.New [p] = .ok ⟨n⟩)
  ∧ (∀ (IP : Type) (validIP : String → Bool) (parseIP : String → IP)
        (params : List String), params.length ≠ 2 →
        IP4.New IP validIP parseIP params = .error (.paramLength 2 params))
  ∧ (∀ (IP : Type) (validIP : String → Bool) (parseIP : String → IP) (n a : String),
        validIP a = false →
        IP4.New IP validIP parseIP [n, a] = .error (.paramType a "IP"))
  ∧ (∀ (IP : Type) (validIP : String → Bool) (parseIP : String → IP) (n a : String),
        validIP a = true →
        IP4.New IP validIP parseIP [n, a] = .ok ⟨n, parseIP a⟩)
  ∧ (∀ (parseDuration : String → Option Int) (params : List String), params.length ≠ 2 →
        TCPTimeout.New parseDuration params = .error (.paramLength 2 params))
  ∧ (∀ (parseDuration : String → Option Int) (n d : String), parseDuration d = none →
        TCPTimeout.New parseDuration [n, d] = .error (.paramType d "time.Duration"))
  ∧ (∀ (parseDuration : String → Option Int) (n d : String) (dur : Int),
        parseDuration d = some dur →
        TCPTimeout.New parseDuration [n, d] = .ok ⟨n, dur⟩)
  ∧ (∀ (R : Type) (compile : String → Option R) (params : List String), params.length ≠ 2 →
        ResponseMatches.New R compile params = .error (.paramLength 2 params))
  ∧ (∀ (R : Type) (compile : String → Option R) (u p : String), compile p = none →
        ResponseMatches.New R compile [u, p] = .error (.paramType p "regexp"))
  ∧ (∀ (R : Type) (compile : String → Option R) (u p : String) (re : R),
        compile p = some re →
        ResponseMatches.New R compile [u, p] = .ok ⟨u, re⟩) := by
  refine ⟨?_, ?_, ?_, ?_, ?_, ?_, ?_, ?_, ?_, ?_, ?_, ?_⟩
  · intro params h
    match params with
    | [] => rfl
    | [p] => exact absurd rfl h
    | p :: q :: rest => rfl
  · intro p hp; simp [Port.New, hp]
  · intro p n hp; simp [Port.New, hp]
  · intro IP validIP parseIP params h
    match params with
    | [] => rfl
    | [p] => rfl
    | [p, q] => exact absurd rfl h
    | p :: q :: r :: rest => rfl
  · intro IP validIP parseIP n a h; simp [IP4.New, h]
  · intro IP validIP parseIP n a h; simp [IP4.New, h]
  · intro parseDuration params h
    match params with
    | [] => rfl
    | [p] => rfl
    | [p, q] => exact absurd rfl h
    | p :: q :: r :: rest => rfl
  · intro parseDuration n d h; simp [TCPTimeout.New, h]
  · intro parseDuration n d dur h; simp [TCPTimeout.New, h]
  · intro R compile params h
    match params with
    | [] => rfl
    | [p] => rfl
    | [p, q] => exact absurd rfl h
    | p :: q :: r :: rest => rfl
  · intro R compile u p h; simp [ResponseMatches.New, h]
  · intro R compile u p re h; simp [ResponseMatches.New, h]

/-- Claim C3 witness: concrete runs of the four representative `New`
methods — wrong arity, rejected value (non-numeric and out-of-range
port strings, invalid IP, unparsable duration, uncompilable pattern)
and a valid parameter set each. -/
theorem C3_construction_validation_witness :
    Port.New [] = .error (.paramLength 1 [])
  ∧ Port.New ["80", "81"] = .error (.paramLength 1 ["80", "81"])
  ∧ Port.New ["foo"] = .error (.paramType "foo" "uint16")
  ∧ Port.New ["70000"] = .error (.paramType "70000" "uint16")
  ∧ Port.New ["80"] = .ok ⟨80⟩
  ∧ IP4.New String (fun s => s == "1.2.3.4") id ["lo"] = .error (.paramLength 2 ["lo"])
  ∧ IP4.New String (fun s => s == "1.2.3.4") id ["lo", "bad"] = .error (.paramType "bad" "IP")
  ∧ IP4.New String (fun s => s == "1.2.3.4") id ["lo", "1.2.3.4"] = .ok ⟨"lo", "1.2.3.4"⟩
  ∧ TCPTimeout.New (fun s => if s = "5s" then some 5000000000 else none) ["h:80", "zzz"]
      = .error (.paramType "zzz" "time.Duration")
  ∧ TCPTimeout.New (fun s => if s = "5s" then some 5000000000 else none) ["h:80", "5s"]
      = .ok ⟨"h:80", 5000000000⟩
  ∧ ResponseMatches.New Nat (fun s => if s = "html" then some 7 else none) ["http://x", "("]
      = .error (.paramType "(" "regexp")
  ∧ ResponseMatches.New Nat (fun s => if s = "html" then some 7 else none) ["http://x", "html"]
      = .ok ⟨"http://x", 7⟩ := by
  obtain ⟨h1, h2, h3, h4, h5, h6, h7, h8, h9, h10, h11, h12⟩ := C3_construction_validation
  refine ⟨h1 [] (by decide), h1 ["80", "81"] (by decide),
    h2 "foo" (by decide), h2 "70000" (by decide), h3 "80" 80 (by decide),
    h4 String (fun s => s == "1.2.3.4") id ["lo"] (by decide),
    h5 String (fun s => s == "1.2.3.4") id "lo" "bad" (by decide),
    h6 String (fun s => s == "1.2.3.4") id "lo" "1.2.3.4" (by decide),
    h8 (fun s => if s = "5s" then some 5000000000 else none) "h:80" "zzz" (by decide),
    h9 (fun s => if s = "5s" then some 5000000000 else none) "h:80" "5s" 5000000000 (by decide),
    h11 Nat (fun s => if s = "html" then some 7 else none) "http://x" "(" (by decide),
    h12 Nat (fun s => if s = "html" then some 7 else none) "http://x" "html" 7 (by decide)⟩

/-- Claim C6: with a matching Core-temperature line of value V first in
the sensor output, `Temp(max)` passes iff V < max and fails iff
V >= max; with no matching line at all the run aborts through
`errutil.IndexError` (the fatal InfrastructureError tier, `none` here)
instead of reporting the condition false. -/
theorem C6_temp_threshold (matchTemp : String → Option Nat) (mx : Nat)
    (lines : List String) :
    ((∀ l ∈ lines, matchTemp l = none) → Temp.Status matchTemp ⟨mx⟩ lines = none)
  ∧ (∀ (V : Nat) (rest : List Nat), lines.filterMap matchTemp = V :: rest →
      ((Temp.Status matchTemp ⟨mx⟩ lines = some success ↔ V < mx)
       ∧ (∃ r : Result, Temp.Status matchTemp ⟨mx⟩ lines = some r
            ∧ (r.code ≠ 0 ↔ mx ≤ V)))) := by
  constructor
  · intro hnone
    have hnil : lines.filterMap matchTemp = [] := List.filterMap_eq_nil_iff.mpr hnone
    unfold Temp.Status
    rw [hnil]
  · intro V rest hV
    have hT : Temp.Status matchTemp ⟨mx⟩ lines =
        (if V < mx then some success
         else some (genericError "Core Temp exceeds defined maximum" (toString mx)
           [toString V])) := by
      unfold Temp.Status
      rw [hV]
    by_cases h : V < mx
    · refine ⟨by simp [hT, h], ⟨success, by simp [hT, h], ?_⟩⟩
      simp only [success]
      omega
    · refine ⟨?_, ⟨genericError "Core Temp exceeds defined maximum" (toString mx) [toString V],
        by simp [hT, h], ?_⟩⟩
      · rw [hT, if_neg h]
        simp only [genericError, success, Option.some_inj, Result.mk.injEq]
        constructor
        · intro hfc
          exact absurd hfc.1 (by decide)
        · intro hlt
          exact absurd hlt h
      · simp only [genericError]
        omega

/-- Claim C6 witness: with a matcher recognising the line "Core 0: 45"
as temperature 45 — `Temp(50)` passes on output containing that line,
`Temp(40)` fails, and output with no matching line aborts (`none`). -/
theorem C6_temp_threshold_witness :
    Temp.Status (fun l => if l = "Core 0: 45" then some 45 else none) ⟨50⟩
      ["cpu", "Core 0: 45"] = some success
  ∧ (∃ r : Result, Temp.Status (fun l => if l = "Core 0: 45" then some 45 else none) ⟨40⟩
      ["cpu", "Core 0: 45"] = some r ∧ r.code ≠ 0)
  ∧ Temp.Status (fun l => if l = "Core 0: 45" then some 45 else none) ⟨50⟩
      ["cpu", "fan"] = none := by
  refine ⟨?_, ?_, ?_⟩
  · exact ((C6_temp_threshold (fun l => if l = "Core 0: 45" then some 45 else none) 50
      ["cpu", "Core 0: 45"]).2 45 [] (by decide)).1.mpr (by decide)
  · obtain ⟨r, hr, hiff⟩ := ((C6_temp_threshold
      (fun l => if l = "Core 0: 45" then some 45 else none) 40
      ["cpu", "Core 0: 45"]).2 45 [] (by decide)).2
    exact ⟨r, hr, hiff.mpr (by decide)⟩
  · exact (C6_temp_threshold (fun l => if l = "Core 0: 45" then some 45 else none) 50
      ["cpu", "fan"]).1 (by decide)

/- ### The Result invariant -/

/-- The amended Result invariant: a passing execution (code 0) is
exactly an empty message with a nil internal error; equivalently, every
failing execution carries a non-empty message or a non-nil error. -/
def ResultInv (r : Result) : Prop :=
  r.code = 0 ↔ (r.message = "" ∧ r.cause = none)

/-- The invariant lifted over the fatal-abort tier (`none` aborts the
run before any Result is produced). -/
def OptResultInv : Option Result → Prop
  | none => True
  | some r => ResultInv r

theorem resultInv_success : ResultInv success := by
  constructor
  · intro _
    exact ⟨rfl, rfl⟩
  · intro _
    rfl

theorem resultInv_genericError (m s : String) (a : List String) :
    ResultInv (genericError m s a) := by
  constructor
  · intro h
    exact absurd h (by simp [genericError])
  · intro h
    exact absurd h.1 (genericError_message_ne_empty m s a)

theorem resultInv_ite (c : Prop) [Decidable c] (m s : String) (a : List String) :
    ResultInv (if c then success else genericError m s a) := by
  split
  · exact resultInv_success
  · exact resultInv_genericError m s a

theorem resultInv_fail_message (m : String) (c : Option String) (hm : m ≠ "") :
    ResultInv ⟨1, m, c⟩ := by
  constructor
  · intro h
    exact absurd h Nat.one_ne_zero
  · intro h
    exact absurd h.1 hm

theorem resultInv_fail_cause (m e : String) : ResultInv ⟨1, m, some e⟩ := by
  constructor
  · intro h
    exact absurd h Nat.one_ne_zero
  · intro h
    exact absurd h.2 (Option.some_ne_none e)

/-- Claim C1 (amended): for every modelled check execution, code == 0
iff message == "" and cause == nil — and hence every failing execution
carries a non-empty message OR a non-nil internal error (the Command
check's start-failure path returns code 1 with an empty message and the
raw error, so "non-empty message" alone does not hold). -/
theorem C1_result_invariant_amended :
    (∀ (env : NetEnv) (chk : Port), ResultInv (Port.Status env chk))
  ∧ (∀ (env : NetEnv) (chk : PortTCP), ResultInv (PortTCP.Status env chk))
  ∧ (∀ (env : NetEnv) (chk : PortUDP), ResultInv (PortUDP.Status env chk))
  ∧ (∀ (IP : Type) (env : IPEnv IP) (n : String) (a : IP) (v : Nat),
      ResultInv (ipCheck IP env n a v))
  ∧ (∀ (gatewayCol : List String) (chk : Gateway),
      ResultInv (Gateway.Status gatewayCol chk))
  ∧ (∀ (gatewayCol ifaceCol : List String) (chk : GatewayInterface),
      OptResultInv (GatewayInterface.Status gatewayCol ifaceCol chk))
  ∧ (∀ (resolvable : String → Bool) (chk : Host),
      ResultInv (Host.Status resolvable chk))
  ∧ (∀ (canConnect : String → String → Int → Bool) (h p : String) (t : Int),
      ResultInv (connectionCheck canConnect h p t))
  ∧ (∀ (env : CmdEnv) (chk : Command), ResultInv (Command.Status env chk))
  ∧ (∀ (env : PsEnv) (chk : Running), ResultInv (Running.Status env chk))
  ∧ (∀ (matchTemp : String → Option Nat) (chk : Temp) (lines : List String),
      OptResultInv (Temp.Status matchTemp chk lines)) := by
  refine ⟨?_, ?_, ?_, ?_, ?_, ?_, ?_, ?_, ?_, ?_, ?_⟩
  · intro env chk
    exact resultInv_ite _ _ _ _
  · intro env chk
    exact resultInv_ite _ _ _ _
  · intro env chk
    exact resultInv_ite _ _ _ _
  · intro IP env n a v
    exact resultInv_ite _ _ _ _
  · intro gatewayCol chk
    exact resultInv_ite _ _ _ _
  · intro gatewayCol ifaceCol chk
    rw [GatewayInterface.Status]
    cases getGatewayInterface gatewayCol ifaceCol with
    | none => trivial
    | some iface =>
      show OptResultInv (if chk.name = iface then some success
        else some (genericError "Default Gateway does not operate on interface"
          chk.name [iface]))
      split
      · exact resultInv_success
      · exact resultInv_genericError _ _ _
  · intro resolvable chk
    rw [Host.Status]
    split
    · exact resultInv_success
    · exact resultInv_fail_message _ _
        (append_ne_empty_of_left "Host cannot be resolved: " chk.hostname (by decide))
  · intro canConnect h p t
    rw [connectionCheck]
    split
    · exact resultInv_success
    · exact resultInv_fail_message _ _
        (append_ne_empty_of_left "Could not connect over " _ (by decide))
  · intro env chk
    rcases env with ⟨se, wf, co⟩
    cases se with
    | some e =>
      show ResultInv (if strContains e "not found in $PATH" then
        ⟨1, "Executable not found: " ++ chk.cmd, none⟩ else ⟨1, "", some e⟩)
      split
      · exact resultInv_fail_message _ _
          (append_ne_empty_of_left "Executable not found: " chk.cmd (by decide))
      · exact resultInv_fail_cause _ e
    | none =>
      cases wf with
      | some recovered =>
        exact resultInv_fail_message _ _
          (append_ne_empty_of_left "Command exited with non-zero exit code:" _ (by decide))
      | none => exact resultInv_success
  · intro env chk
    exact resultInv_ite _ _ _ _
  · intro matchTemp chk lines
    rw [Temp.Status]
    cases lines.filterMap matchTemp with
    | nil => trivial
    | cons t rest =>
      show OptResultInv (if t < chk.max then some success
        else some (genericError "Core Temp exceeds defined maximum"
          (toString chk.max) [toString t]))
      split
      · exact resultInv_success
      · exact resultInv_genericError _ _ _

/-- Claim C1 (counterexample to the claim as stated): when `cmd.Start()`
fails with an error not mentioning "$PATH" (e.g. a fork failure), the
Command check returns code 1 with an EMPTY message (the raw error is
carried in the internal error instead) — a failing execution without a
non-empty diagnostic message. -/
theorem C1_empty_message_failure :
    (Command.Status ⟨some "fork/exec /bin/bash: resource temporarily unavailable", none, ""⟩
      ⟨"true"⟩).code ≠ 0
  ∧ (Command.Status ⟨some "fork/exec /bin/bash: resource temporarily unavailable", none, ""⟩
      ⟨"true"⟩).message = ""
  ∧ (Command.Status ⟨some "fork/exec /bin/bash: resource temporarily unavailable", none, ""⟩
      ⟨"true"⟩).cause ≠ none := by
  decide
